import Mathlib

/-!
Verification of the quota-tracking and admission-control subsystem of the
`imagen` HTTP gateway (`src/app.py`), shallowly embedded in Lean.

The embedding mirrors the Python source:
* `DateTime` models naive `datetime.datetime` values down to seconds;
  `deltaDays a b` models `(a - b).days` (floor division of the elapsed
  seconds by 86400), `addOneDay` models `+ timedelta(days=1)`, and
  `fmtDate` / `fmtDateTime` model the two `strftime` formats used.
* `UsageRecord` models one entry of the `usage_tracker` dict: the Python
  record is a string-keyed dict, so each of the four fields is an `Option`
  (absent key = `none`); paid records are created without daily fields.
* `Tracker` models `usage_tracker` as an association list.
* `reset_usage` models the background sweeper; `freeQuotaWith` /
  `paidQuotaWith` model the rate-limiting section of `generate_image`
  (lines 95-139), which the source executes under a single `threading.Lock`
  held for the whole fetch/check/increment region, so each call is one
  atomic transition on the tracker.
* `generate_image` models the whole request handler; `Option` is `none`
  where the Python would raise an uncaught exception (a `KeyError` outside
  the `try` block), and the caught-exception path is the 500 response.
  The upstream rendering call is an external collaborator: the model takes
  its outcome (`upstreamOk`, `imagesLen`) as request inputs.
-/

/-- Naive calendar timestamp, as Python's `datetime.datetime` (to seconds). -/
structure DateTime where
  year : Nat
  month : Nat
  day : Nat
  hour : Nat
  minute : Nat
  second : Nat
deriving DecidableEq, Repr

/-- Days since the Unix epoch of a civil date (standard civil-calendar
conversion, as Python's `datetime` date arithmetic computes it). -/
def daysFromCivil (y m d : Int) : Int :=
  let y2 : Int := if m ≤ 2 then y - 1 else y
  let era : Int := (if 0 ≤ y2 then y2 else y2 - 399) / 400
  let yoe : Int := y2 - era * 400
  let mp : Int := (m + 9) % 12
  let doy : Int := (153 * mp + 2) / 5 + d - 1
  let doe : Int := yoe * 365 + yoe / 4 - yoe / 100 + doy
  era * 146097 + doe - 719468

/-- Seconds since the Unix epoch of a `DateTime`. -/
def toSec (dt : DateTime) : Int :=
  86400 * daysFromCivil (dt.year : Int) (dt.month : Int) (dt.day : Int)
    + 3600 * (dt.hour : Int) + 60 * (dt.minute : Int) + (dt.second : Int)

/-- `(a - b).days` of Python: the `days` attribute of a `timedelta` is the
floor of the elapsed seconds divided by 86400. -/
def deltaDays (a b : DateTime) : Int :=
  Int.fdiv (toSec a - toSec b) 86400

/-- Gregorian leap-year rule. -/
def isLeapYear (y : Nat) : Bool :=
  (y % 4 == 0 && y % 100 != 0) || y % 400 == 0

/-- Number of days in a civil month. -/
def daysInMonth (y m : Nat) : Nat :=
  if m = 2 then (if isLeapYear y then 29 else 28)
  else if m = 4 ∨ m = 6 ∨ m = 9 ∨ m = 11 then 30
  else 31

/-- `dt + timedelta(days=1)`: the next civil day at the same clock time. -/
def addOneDay (dt : DateTime) : DateTime :=
  if dt.day < daysInMonth dt.year dt.month then { dt with day := dt.day + 1 }
  else if dt.month < 12 then { dt with month := dt.month + 1, day := 1 }
  else { dt with year := dt.year + 1, month := 1, day := 1 }

/-- Two-digit zero padding, as `strftime` pads month/day/time fields. -/
def pad2 (n : Nat) : String :=
  if n < 10 then "0" ++ toString n else toString n

/-- `strftime('%Y-%m-%d')`. -/
def fmtDate (dt : DateTime) : String :=
  toString dt.year ++ "-" ++ pad2 dt.month ++ "-" ++ pad2 dt.day

/-- `strftime('%Y-%m-%d %H:%M:%S')`. -/
def fmtDateTime (dt : DateTime) : String :=
  fmtDate dt ++ " " ++ pad2 dt.hour ++ ":" ++ pad2 dt.minute ++ ":" ++ pad2 dt.second

/-- One entry of `usage_tracker`.  The Python value is a dict; each field is
`none` when the corresponding key is absent.  Free-user records are created
with all four keys, paid-user records with only the monthly keys. -/
structure UsageRecord where
  dailyCount : Option Nat
  dailyReset : Option DateTime
  monthlyCount : Option Nat
  monthlyReset : Option DateTime
deriving DecidableEq, Repr

/-- `usage_tracker`: the identity-to-record mapping, as an association list. -/
abbrev Tracker := List (String × UsageRecord)

/-- Dict lookup `usage_tracker[key]` (as an `Option`). -/
def lookupT : Tracker → String → Option UsageRecord
  | [], _ => none
  | (k, v) :: rest, key => if k = key then some v else lookupT rest key

/-- Dict store `usage_tracker[key] = v`. -/
def insertT : Tracker → String → UsageRecord → Tracker
  | [], key, v => [(key, v)]
  | (k, w) :: rest, key, v =>
    if k = key then (key, v) :: rest else (k, w) :: insertT rest key v

/-- `'daily_reset' not in usage or (now - usage['daily_reset']).days >= 1`
(the daily branch condition of `reset_usage`, app.py line 31). -/
def dailyExpired (now : DateTime) (u : UsageRecord) : Bool :=
  match u.dailyReset with
  | none => true
  | some t => deltaDays now t ≥ 1

/-- `'monthly_reset' not in usage or now.month != usage['monthly_reset'].month`
(the monthly branch condition of `reset_usage`, app.py line 36).  Note the
source compares only the month-of-year numbers, not the years. -/
def monthlyExpired (now : DateTime) (u : UsageRecord) : Bool :=
  match u.monthlyReset with
  | none => true
  | some t => now.month ≠ t.month

/-- The body of `reset_usage` for one record: zero the daily counter and
restart its window when expired, then likewise for the monthly counter
(app.py lines 31-38). -/
def resetRecord (now : DateTime) (u : UsageRecord) : UsageRecord :=
  let u1 := if dailyExpired now u then
      { u with dailyCount := some 0, dailyReset := some now } else u
  if monthlyExpired now u1 then
    { u1 with monthlyCount := some 0, monthlyReset := some now } else u1

/-- `reset_usage` (app.py lines 25-38): the background sweeper applies
`resetRecord` to every entry of the tracker, under the lock. -/
def reset_usage (now : DateTime) (t : Tracker) : Tracker :=
  t.map (fun p => (p.1, resetRecord now p.2))

/-- Outcome of the rate-limiting section of `generate_image`: either an
early-returned 429 JSON denial, or admission with the `user_type` string. -/
inductive QuotaResult where
  | denied (error : String) (limit : Nat) (reset : String) (status : Nat)
  | admitted (userType : String)
deriving DecidableEq, Repr

/-- The record created for a previously-unseen free user (app.py 116-121). -/
def freshFreeRecord (now : DateTime) : UsageRecord :=
  ⟨some 0, some now, some 0, some now⟩

/-- The record created for a previously-unseen paid user (app.py 99-102):
no daily fields. -/
def freshPaidRecord (now : DateTime) : UsageRecord :=
  ⟨none, none, some 0, some now⟩

/-- Free-user rate limiting (app.py lines 113-139), with the two caps as
parameters (they are module-level configuration constants in the source).
Executed atomically: the source holds the mapping-wide lock for the whole
fetch/check/increment region.  `none` models a `KeyError` on a record that
lacks an accessed key (no reachable free record does). -/
def freeQuotaWith (dCap mCap : Nat) (now : DateTime) (ip : String) (t : Tracker) :
    Option (Tracker × QuotaResult) :=
  let t1 := match lookupT t ip with
    | none => insertT t ip (freshFreeRecord now)
    | some _ => t
  match lookupT t1 ip with
  | none => none
  | some u =>
    match u.dailyCount with
    | none => none
    | some dc =>
      if dc ≥ dCap then
        match u.dailyReset with
        | none => none
        | some dr =>
          some (t1, QuotaResult.denied "Daily free limit exceeded" dCap
            (fmtDateTime (addOneDay dr)) 429)
      else
        match u.monthlyCount with
        | none => none
        | some mc =>
          if mc ≥ mCap then
            match u.monthlyReset with
            | none => none
            | some mr =>
              some (t1, QuotaResult.denied "Monthly free limit exceeded" mCap
                (fmtDate mr) 429)
          else
            some (insertT t1 ip
              { u with dailyCount := some (dc + 1), monthlyCount := some (mc + 1) },
              QuotaResult.admitted "free")

/-- Paid-user rate limiting (app.py lines 96-112), monthly cap as parameter. -/
def paidQuotaWith (mCap : Nat) (now : DateTime) (apiKey : String) (t : Tracker) :
    Option (Tracker × QuotaResult) :=
  let t1 := match lookupT t apiKey with
    | none => insertT t apiKey (freshPaidRecord now)
    | some _ => t
  match lookupT t1 apiKey with
  | none => none
  | some u =>
    match u.monthlyCount with
    | none => none
    | some mc =>
      if mc ≥ mCap then
        match u.monthlyReset with
        | none => none
        | some mr =>
          some (t1, QuotaResult.denied "Monthly limit exceeded" mCap (fmtDate mr) 429)
      else
        some (insertT t1 apiKey { u with monthlyCount := some (mc + 1) },
          QuotaResult.admitted "paid")

/-- `MAX_FREE_DAILY` (app.py line 15). -/
def MAX_FREE_DAILY : Nat := 60
/-- `MAX_FREE_MONTHLY` (app.py line 16). -/
def MAX_FREE_MONTHLY : Nat := 100
/-- `MAX_PAID_MONTHLY` (app.py line 17). -/
def MAX_PAID_MONTHLY : Nat := 200

/-- Free-user rate limiting at the configured caps. -/
def freeQuota : DateTime → String → Tracker → Option (Tracker × QuotaResult) :=
  freeQuotaWith MAX_FREE_DAILY MAX_FREE_MONTHLY

/-- Paid-user rate limiting at the configured cap. -/
def paidQuota : DateTime → String → Tracker → Option (Tracker × QuotaResult) :=
  paidQuotaWith MAX_PAID_MONTHLY

/-- A request as the handler sees it.  `apiKey` is the trimmed
`X-API-Key` header value (empty when absent), `ipAddr` is
`request.remote_addr`, `prompt` is `none` when the decoded input carries no
prompt.  `upstreamOk` and `imagesLen` summarise the external rendering
collaborator: whether the outbound calls succeed, and how many images they
return. -/
structure Req where
  apiKey : String
  ipAddr : String
  prompt : Option String
  upstreamOk : Bool
  imagesLen : Nat
deriving DecidableEq, Repr

/-- `is_paid_user = api_key and api_key in valid_keys` (app.py line 92). -/
def isPaidUser (validKeys : List String) (apiKey : String) : Bool :=
  apiKey != "" && validKeys.contains apiKey

/-- The response returned to the caller, keeping the fields the claims are
about: denial JSON with status, the single-image response with its extra
headers, the batch JSON response (no extra headers), and the caught-exception
500 JSON. -/
inductive HttpResponse where
  | denyJson (error : String) (limit : Nat) (reset : String) (status : Nat)
  | singleImage (headers : List (String × String))
  | batchJson
  | errorJson (error : String) (status : Nat)
deriving DecidableEq, Repr

/-- The extra headers a response carries: only the single-image `Response`
sets any (app.py lines 197-212). -/
def respHeaders : HttpResponse → List (String × String)
  | HttpResponse.singleImage hs => hs
  | _ => []

/-- The `X-RateLimit-Remaining` value (app.py line 203): re-reads the
tracker after generation; `none` models a `KeyError` (inside the `try`). -/
def remainingHeader (t : Tracker) (userType : String) (apiKey ipAddr : String) :
    Option String :=
  if userType = "paid" then
    match lookupT t apiKey with
    | none => none
    | some u =>
      match u.monthlyCount with
      | none => none
      | some mc => some (toString ((MAX_PAID_MONTHLY : Int) - (mc : Int)))
  else
    match lookupT t ipAddr with
    | none => none
    | some u =>
      match u.dailyCount, u.monthlyCount with
      | some dc, some mc =>
        some (toString ((MAX_FREE_DAILY : Int) - (dc : Int)) ++ "/"
          ++ toString ((MAX_FREE_MONTHLY : Int) - (mc : Int)))
      | _, _ => none

/-- The request handler `generate_image` (app.py lines 79-216): rate
limiting first (under the lock), then the `try` block, whose caught
exceptions (missing prompt, upstream failure, header `KeyError`) become the
500 response.  Result `none` models an uncaught exception outside the `try`. -/
def generate_image (validKeys : List String) (now : DateTime) (req : Req)
    (t : Tracker) : Option (Tracker × HttpResponse) :=
  let isPaid := isPaidUser validKeys req.apiKey
  let quota := if isPaid then paidQuota now req.apiKey t
    else freeQuota now req.ipAddr t
  match quota with
  | none => none
  | some (t1, QuotaResult.denied e l r s) => some (t1, HttpResponse.denyJson e l r s)
  | some (t1, QuotaResult.admitted userType) =>
    match req.prompt with
    | none => some (t1, HttpResponse.errorJson "Image generation failed" 500)
    | some _ =>
      if req.upstreamOk = false then
        some (t1, HttpResponse.errorJson "Image generation failed" 500)
      else if req.imagesLen = 1 then
        match remainingHeader t1 userType req.apiKey req.ipAddr with
        | none => some (t1, HttpResponse.errorJson "Image generation failed" 500)
        | some rem =>
          some (t1, HttpResponse.singleImage
            [("X-RateLimit-Type", userType), ("X-RateLimit-Remaining", rem),
             ("Cache-Control", "no-store")])
      else some (t1, HttpResponse.batchJson)

/-- Running `n` identical free-tier admission decisions from one identity,
counting admissions and denials.  Because the source holds one mapping-wide
lock for the whole fetch/check/increment region, any concurrent execution of
`n` such requests is serialized into exactly such a sequence. -/
def runFreeRequests (dCap mCap : Nat) (now : DateTime) (ip : String) :
    Nat → Tracker → Tracker × Nat × Nat
  | 0, t => (t, 0, 0)
  | n + 1, t =>
    match freeQuotaWith dCap mCap now ip t with
    | some (t1, QuotaResult.admitted _) =>
      let r := runFreeRequests dCap mCap now ip n t1
      (r.1, r.2.1 + 1, r.2.2)
    | some (t1, QuotaResult.denied _ _ _ _) =>
      let r := runFreeRequests dCap mCap now ip n t1
      (r.1, r.2.1, r.2.2 + 1)
    | none => (t, 0, 0)

/-! ### Helper lemmas -/

theorem lookupT_insertT_self (t : Tracker) (key : String) (v : UsageRecord) :
    lookupT (insertT t key v) key = some v := by
  induction t with
  | nil => simp [insertT, lookupT]
  | cons p rest ih =>
    obtain ⟨k, w⟩ := p
    by_cases hk : k = key
    · simp [insertT, lookupT, hk]
    · simp [insertT, lookupT, hk, ih]

theorem lookupT_reset_usage (now : DateTime) (t : Tracker) (key : String) :
    lookupT (reset_usage now t) key = (lookupT t key).map (resetRecord now) := by
  induction t with
  | nil => simp [reset_usage, lookupT]
  | cons p rest ih =>
    obtain ⟨k, w⟩ := p
    by_cases hk : k = key
    · simp [reset_usage, lookupT, hk]
    · simp only [reset_usage, List.map_cons, lookupT, hk, if_false] at ih ⊢
      exact ih

/-! ### C1 -/

/-- C1: for a standard-tier (free) request whose identity already has a
record, the admission decision checks the daily cap first and the monthly
cap second: at or over the daily cap it denies with the daily-limit reason,
status 429, the daily limit and the formatted instant `dailyWindowStart + 1
day`; otherwise at or over the monthly cap it denies with the monthly-limit
reason, status 429, the monthly limit and the stored monthly window-start
date; otherwise it increments both counters by exactly one and admits. -/
theorem free_admission_decision_order (dCap mCap : Nat) (now : DateTime)
    (ip : String) (t : Tracker) (u : UsageRecord) (dc mc : Nat) (dr mr : DateTime)
    (hu : lookupT t ip = some u)
    (hdc : u.dailyCount = some dc) (hdr : u.dailyReset = some dr)
    (hmc : u.monthlyCount = some mc) (hmr : u.monthlyReset = some mr) :
    (dCap ≤ dc →
      freeQuotaWith dCap mCap now ip t =
        some (t, QuotaResult.denied "Daily free limit exceeded" dCap
          (fmtDateTime (addOneDay dr)) 429)) ∧
    (dc < dCap → mCap ≤ mc →
      freeQuotaWith dCap mCap now ip t =
        some (t, QuotaResult.denied "Monthly free limit exceeded" mCap
          (fmtDate mr) 429)) ∧
    (dc < dCap → mc < mCap →
      freeQuotaWith dCap mCap now ip t =
        some (insertT t ip
          { u with dailyCount := some (dc + 1), monthlyCount := some (mc + 1) },
          QuotaResult.admitted "free")) := by
  refine ⟨fun h1 => ?_, fun h1 h2 => ?_, fun h1 h2 => ?_⟩
  · simp [freeQuotaWith, hu, hdc, hdr, h1]
  · simp [freeQuotaWith, hu, hdc, hmc, hmr, Nat.not_le.mpr h1, h2]
  · simp [freeQuotaWith, hu, hdc, hmc, Nat.not_le.mpr h1, Nat.not_le.mpr h2]

/-- C1 witness: a concrete record at the daily cap is denied with the
daily-limit reason, limit 3 and the window start plus one day. -/
theorem free_admission_decision_order_witness :
    (3 : Nat) ≤ 3 ∧
    freeQuotaWith 3 30 ⟨2024, 1, 1, 12, 0, 0⟩ "1.2.3.4"
      [("1.2.3.4", ⟨some 3, some ⟨2024, 1, 1, 0, 0, 0⟩, some 7, some ⟨2024, 1, 1, 0, 0, 0⟩⟩)] =
      some ([("1.2.3.4", ⟨some 3, some ⟨2024, 1, 1, 0, 0, 0⟩, some 7, some ⟨2024, 1, 1, 0, 0, 0⟩⟩)],
        QuotaResult.denied "Daily free limit exceeded" 3
          (fmtDateTime (addOneDay ⟨2024, 1, 1, 0, 0, 0⟩)) 429) :=
  ⟨by decide,
    (free_admission_decision_order 3 30 ⟨2024, 1, 1, 12, 0, 0⟩ "1.2.3.4"
      [("1.2.3.4", ⟨some 3, some ⟨2024, 1, 1, 0, 0, 0⟩, some 7, some ⟨2024, 1, 1, 0, 0, 0⟩⟩)]
      ⟨some 3, some ⟨2024, 1, 1, 0, 0, 0⟩, some 7, some ⟨2024, 1, 1, 0, 0, 0⟩⟩
      3 7 ⟨2024, 1, 1, 0, 0, 0⟩ ⟨2024, 1, 1, 0, 0, 0⟩
      (by decide) rfl rfl rfl rfl).1 (by decide)⟩

/-! ### C2 -/

/-- C2 counterexample: a standard-tier record at the daily cap (60) whose
daily window started two full days before the request instant is still
denied by the admission decision — `generate_image` performs no rollover;
the claim says such a request is admitted. -/
theorem admission_no_lazy_rollover_counterexample :
    deltaDays ⟨2024, 1, 3, 0, 0, 0⟩ ⟨2024, 1, 1, 0, 0, 0⟩ ≥ 1 ∧
    freeQuota ⟨2024, 1, 3, 0, 0, 0⟩ "1.2.3.4"
      [("1.2.3.4", ⟨some 60, some ⟨2024, 1, 1, 0, 0, 0⟩, some 60, some ⟨2024, 1, 1, 0, 0, 0⟩⟩)] =
      some ([("1.2.3.4", ⟨some 60, some ⟨2024, 1, 1, 0, 0, 0⟩, some 60, some ⟨2024, 1, 1, 0, 0, 0⟩⟩)],
        QuotaResult.denied "Daily free limit exceeded" 60 "2024-01-02 00:00:00" 429) := by
  exact ⟨by decide, by decide⟩

/-- C2 (amended): the admission decision performs no window rollover — it
reads the stored counters as they are.  A standard-tier record at the daily
cap whose daily window expired 24 hours or more ago is still denied; it is
admitted only after the background sweeper (`reset_usage`) has run, which is
therefore required for correctness, not a convenience. -/
theorem admission_no_lazy_rollover (now : DateTime) (ip : String) (t : Tracker)
    (u : UsageRecord) (dc mc : Nat) (dr mr : DateTime)
    (hu : lookupT t ip = some u)
    (hdc : u.dailyCount = some dc) (hdr : u.dailyReset = some dr)
    (hmc : u.monthlyCount = some mc) (hmr : u.monthlyReset = some mr)
    (hcap : MAX_FREE_DAILY ≤ dc) (hexp : deltaDays now dr ≥ 1)
    (hmon : now.month = mr.month) (hmc2 : mc < MAX_FREE_MONTHLY) :
    freeQuota now ip t =
      some (t, QuotaResult.denied "Daily free limit exceeded" MAX_FREE_DAILY
        (fmtDateTime (addOneDay dr)) 429) ∧
    freeQuota now ip (reset_usage now t) =
      some (insertT (reset_usage now t) ip ⟨some 1, some now, some (mc + 1), some mr⟩,
        QuotaResult.admitted "free") := by
  obtain ⟨odc, odr, omc, omr⟩ := u
  cases hdc; cases hdr; cases hmc; cases hmr
  constructor
  · simp [freeQuota, freeQuotaWith, hu, hcap]
  · have hres : lookupT (reset_usage now t) ip =
        some (resetRecord now ⟨some dc, some dr, some mc, some mr⟩) := by
      rw [lookupT_reset_usage, hu]; rfl
    have hrr : resetRecord now ⟨some dc, some dr, some mc, some mr⟩ =
        ⟨some 0, some now, some mc, some mr⟩ := by
      simp [resetRecord, dailyExpired, monthlyExpired, hexp, hmon]
    rw [hrr] at hres
    have h60 : ¬ ((0 : Nat) ≥ MAX_FREE_DAILY) := by decide
    simp [freeQuota, freeQuotaWith, hres, h60, Nat.not_le.mpr hmc2]

/-- C2 witness: at the counterexample state, the decision denies, and after
one sweeper pass the same request is admitted with counters 1 and 6. -/
theorem admission_no_lazy_rollover_witness :
    MAX_FREE_DAILY ≤ 60 ∧ deltaDays ⟨2024, 1, 3, 0, 0, 0⟩ ⟨2024, 1, 1, 0, 0, 0⟩ ≥ 1 ∧
    (freeQuota ⟨2024, 1, 3, 0, 0, 0⟩ "1.2.3.4"
      [("1.2.3.4", ⟨some 60, some ⟨2024, 1, 1, 0, 0, 0⟩, some 5, some ⟨2024, 1, 1, 0, 0, 0⟩⟩)] =
      some ([("1.2.3.4", ⟨some 60, some ⟨2024, 1, 1, 0, 0, 0⟩, some 5, some ⟨2024, 1, 1, 0, 0, 0⟩⟩)],
        QuotaResult.denied "Daily free limit exceeded" MAX_FREE_DAILY
          (fmtDateTime (addOneDay ⟨2024, 1, 1, 0, 0, 0⟩)) 429) ∧
     freeQuota ⟨2024, 1, 3, 0, 0, 0⟩ "1.2.3.4"
       (reset_usage ⟨2024, 1, 3, 0, 0, 0⟩
         [("1.2.3.4", ⟨some 60, some ⟨2024, 1, 1, 0, 0, 0⟩, some 5, some ⟨2024, 1, 1, 0, 0, 0⟩⟩)]) =
       some (insertT (reset_usage ⟨2024, 1, 3, 0, 0, 0⟩
           [("1.2.3.4", ⟨some 60, some ⟨2024, 1, 1, 0, 0, 0⟩, some 5, some ⟨2024, 1, 1, 0, 0, 0⟩⟩)])
           "1.2.3.4" ⟨some 1, some ⟨2024, 1, 3, 0, 0, 0⟩, some 6, some ⟨2024, 1, 1, 0, 0, 0⟩⟩,
         QuotaResult.admitted "free")) :=
  ⟨by decide, by decide,
    admission_no_lazy_rollover ⟨2024, 1, 3, 0, 0, 0⟩ "1.2.3.4"
      [("1.2.3.4", ⟨some 60, some ⟨2024, 1, 1, 0, 0, 0⟩, some 5, some ⟨2024, 1, 1, 0, 0, 0⟩⟩)]
      ⟨some 60, some ⟨2024, 1, 1, 0, 0, 0⟩, some 5, some ⟨2024, 1, 1, 0, 0, 0⟩⟩
      60 5 ⟨2024, 1, 1, 0, 0, 0⟩ ⟨2024, 1, 1, 0, 0, 0⟩
      rfl rfl rfl rfl rfl (by decide) (by decide) rfl (by decide)⟩

/-! ### C3 -/

theorem runFreeRequests_count (dCap mCap : Nat) (now : DateTime) (ip : String)
    (hcap : dCap ≤ mCap) :
    ∀ (n : Nat) (t : Tracker) (c : Nat) (dr mr : DateTime), c ≤ dCap →
    lookupT t ip = some ⟨some c, some dr, some c, some mr⟩ →
    (runFreeRequests dCap mCap now ip n t).2.1 = min n (dCap - c) ∧
    (runFreeRequests dCap mCap now ip n t).2.2 = n - min n (dCap - c) := by
  intro n
  induction n with
  | zero => intro t c dr mr hc hu; simp [runFreeRequests]
  | succ m ih =>
    intro t c dr mr hc hu
    by_cases hfull : dCap ≤ c
    · have hq : freeQuotaWith dCap mCap now ip t =
          some (t, QuotaResult.denied "Daily free limit exceeded" dCap
            (fmtDateTime (addOneDay dr)) 429) := by
        simp [freeQuotaWith, hu, hfull]
      have hr := ih t c dr mr hc hu
      simp only [runFreeRequests, hq]
      simp [hr.1, hr.2]
      omega
    · push_neg at hfull
      have hmc : ¬ mCap ≤ c := by omega
      have hq : freeQuotaWith dCap mCap now ip t =
          some (insertT t ip ⟨some (c + 1), some dr, some (c + 1), some mr⟩,
            QuotaResult.admitted "free") := by
        simp [freeQuotaWith, hu, Nat.not_le.mpr hfull, hmc]
      have hu2 : lookupT (insertT t ip ⟨some (c + 1), some dr, some (c + 1), some mr⟩) ip
          = some ⟨some (c + 1), some dr, some (c + 1), some mr⟩ :=
        lookupT_insertT_self t ip ⟨some (c + 1), some dr, some (c + 1), some mr⟩
      have hr := ih _ (c + 1) dr mr (by omega) hu2
      simp only [runFreeRequests, hq]
      simp [hr.1, hr.2]
      omega

/-- C3: with a mapping-wide lock held for the whole fetch/check/increment
region, any set of `M` concurrent standard-tier requests from one identity
serializes into a sequence of `M` atomic decisions; starting from no record,
with daily cap `K < M` (and `K` within the monthly cap), exactly `K` are
admitted and `M - K` denied — no over-admission, no lost increments. -/
theorem concurrent_requests_admit_exactly_cap (K M mCap : Nat) (now : DateTime)
    (ip : String) (t : Tracker)
    (hKM : K < M) (hKmc : K ≤ mCap) (hfresh : lookupT t ip = none) :
    (runFreeRequests K mCap now ip M t).2.1 = K ∧
    (runFreeRequests K mCap now ip M t).2.2 = M - K := by
  obtain ⟨m, rfl⟩ : ∃ m, M = m + 1 := ⟨M - 1, by omega⟩
  have hu1 : lookupT (insertT t ip ⟨some 0, some now, some 0, some now⟩) ip =
      some ⟨some 0, some now, some 0, some now⟩ :=
    lookupT_insertT_self t ip ⟨some 0, some now, some 0, some now⟩
  by_cases hK : K = 0
  · subst hK
    have hq : freeQuotaWith 0 mCap now ip t =
        some (insertT t ip ⟨some 0, some now, some 0, some now⟩,
          QuotaResult.denied "Daily free limit exceeded" 0
            (fmtDateTime (addOneDay now)) 429) := by
      simp [freeQuotaWith, freshFreeRecord, hfresh, hu1]
    have hr := runFreeRequests_count 0 mCap now ip hKmc m _ 0 now now (le_refl 0) hu1
    simp only [runFreeRequests, hq]
    simp [hr.1, hr.2]
  · have hpos : 0 < K := Nat.pos_of_ne_zero hK
    have hq : freeQuotaWith K mCap now ip t =
        some (insertT (insertT t ip ⟨some 0, some now, some 0, some now⟩) ip
            ⟨some 1, some now, some 1, some now⟩,
          QuotaResult.admitted "free") := by
      have hm0 : ¬ mCap = 0 := by omega
      simp [freeQuotaWith, freshFreeRecord, hfresh, hu1, Nat.not_le.mpr hpos, hm0]
    have hu2 := lookupT_insertT_self (insertT t ip ⟨some 0, some now, some 0, some now⟩) ip
      ⟨some 1, some now, some 1, some now⟩
    have hr := runFreeRequests_count K mCap now ip hKmc m _ 1 now now hpos hu2
    simp only [runFreeRequests, hq]
    simp [hr.1, hr.2]
    omega

/-- C3 witness: five requests against daily cap 3 (monthly cap 30) from a
fresh identity: exactly 3 admitted, 2 denied. -/
theorem concurrent_requests_admit_exactly_cap_witness :
    (3 : Nat) < 5 ∧ (3 : Nat) ≤ 30 ∧
    ((runFreeRequests 3 30 ⟨2024, 1, 1, 0, 0, 0⟩ "a" 5 []).2.1 = 3 ∧
     (runFreeRequests 3 30 ⟨2024, 1, 1, 0, 0, 0⟩ "a" 5 []).2.2 = 5 - 3) :=
  ⟨by decide, by decide,
    concurrent_requests_admit_exactly_cap 3 5 30 ⟨2024, 1, 1, 0, 0, 0⟩ "a" []
      (by decide) (by decide) rfl⟩

/-! ### C4 -/

/-- C4 counterexample: a privileged record created without daily fields
acquires `dailyCount = 0` and a daily window-start from one background sweep
(`reset_usage` tests `'daily_reset' not in usage` and then writes both daily
keys into every record, privileged ones included). -/
theorem privileged_record_gains_daily_counter_counterexample :
    paidQuota ⟨2024, 1, 1, 0, 0, 0⟩ "KEY1" [] =
      some ([("KEY1", ⟨none, none, some 1, some ⟨2024, 1, 1, 0, 0, 0⟩⟩)],
        QuotaResult.admitted "paid") ∧
    reset_usage ⟨2024, 1, 2, 0, 0, 0⟩
      [("KEY1", ⟨none, none, some 1, some ⟨2024, 1, 1, 0, 0, 0⟩⟩)] =
      [("KEY1", ⟨some 0, some ⟨2024, 1, 2, 0, 0, 0⟩, some 1, some ⟨2024, 1, 1, 0, 0, 0⟩⟩)] := by
  exact ⟨by decide, by decide⟩

/-- C4 (amended): record creation and the privileged admission decision
never add or consult a daily counter on a privileged record, but the
background sweep adds `dailyCount = 0` and a daily window-start to every
record lacking them, privileged records included; the privileged decision
still never consults those fields. -/
theorem privileged_daily_fields (mCap : Nat) (now : DateTime) (key : String)
    (t : Tracker) (u : UsageRecord) (hu : lookupT t key = some u) :
    (freshPaidRecord now).dailyCount = none ∧ (freshPaidRecord now).dailyReset = none ∧
    (∀ t2 r, paidQuotaWith mCap now key t = some (t2, r) →
      ∃ u2, lookupT t2 key = some u2 ∧ u2.dailyCount = u.dailyCount ∧
        u2.dailyReset = u.dailyReset) ∧
    (u.dailyReset = none →
      (resetRecord now u).dailyCount = some 0 ∧ (resetRecord now u).dailyReset = some now) := by
  obtain ⟨odc, odr, omc, omr⟩ := u
  refine ⟨rfl, rfl, ?_, ?_⟩
  · intro t2 r h
    simp only [paidQuotaWith, hu] at h
    match homc : omc with
    | none => simp [homc] at h
    | some mc =>
      simp only [homc] at h
      by_cases hge : mc ≥ mCap
      · rw [if_pos hge] at h
        match homr : omr with
        | none => simp [homr] at h
        | some mr =>
          simp only [homr, Option.some.injEq, Prod.mk.injEq] at h
          obtain ⟨rfl, -⟩ := h
          exact ⟨_, hu, rfl, rfl⟩
      · rw [if_neg hge] at h
        simp only [Option.some.injEq, Prod.mk.injEq] at h
        obtain ⟨rfl, -⟩ := h
        exact ⟨_, lookupT_insertT_self t key _, rfl, rfl⟩
  · intro hdr
    cases hdr
    simp [resetRecord, dailyExpired, monthlyExpired]
    cases omr with
    | none => simp
    | some mr =>
      by_cases hm : now.month = mr.month <;> simp [hm]

/-- C4 witness: for a concrete privileged record, creation carries no daily
fields, the decision preserves their absence, and the sweep adds them. -/
theorem privileged_daily_fields_witness :
    (freshPaidRecord ⟨2024, 1, 5, 0, 0, 0⟩).dailyCount = none ∧
    (∃ u2, lookupT [("KEY1", ⟨none, none, some 4, some ⟨2024, 1, 1, 0, 0, 0⟩⟩)] "KEY1" = some u2 ∧
      u2.dailyCount = (none : Option Nat) ∧ u2.dailyReset = (none : Option DateTime)) ∧
    ((resetRecord ⟨2024, 1, 5, 0, 0, 0⟩ ⟨none, none, some 3, some ⟨2024, 1, 1, 0, 0, 0⟩⟩).dailyCount = some 0 ∧
     (resetRecord ⟨2024, 1, 5, 0, 0, 0⟩ ⟨none, none, some 3, some ⟨2024, 1, 1, 0, 0, 0⟩⟩).dailyReset =
       some ⟨2024, 1, 5, 0, 0, 0⟩) :=
  ⟨(privileged_daily_fields 200 ⟨2024, 1, 5, 0, 0, 0⟩ "KEY1"
      [("KEY1", ⟨none, none, some 3, some ⟨2024, 1, 1, 0, 0, 0⟩⟩)]
      ⟨none, none, some 3, some ⟨2024, 1, 1, 0, 0, 0⟩⟩ rfl).1,
   by decide,
   (privileged_daily_fields 200 ⟨2024, 1, 5, 0, 0, 0⟩ "KEY1"
      [("KEY1", ⟨none, none, some 3, some ⟨2024, 1, 1, 0, 0, 0⟩⟩)]
      ⟨none, none, some 3, some ⟨2024, 1, 1, 0, 0, 0⟩⟩ rfl).2.2.2 rfl⟩

/-! ### C5 -/

/-- C5 counterexample: a request with no prompt from a fresh standard-tier
identity is not rejected before the admission decision — the decision runs,
creates the record and increments both counters to 1, and only then does the
missing prompt surface, as a caught exception answered with HTTP 500. -/
theorem missing_prompt_touches_ledger_counterexample :
    generate_image [] ⟨2024, 1, 1, 0, 0, 0⟩
      ⟨"", "9.9.9.9", none, true, 1⟩ [] =
      some ([("9.9.9.9", ⟨some 1, some ⟨2024, 1, 1, 0, 0, 0⟩, some 1, some ⟨2024, 1, 1, 0, 0, 0⟩⟩)],
        HttpResponse.errorJson "Image generation failed" 500) := by
  decide

/-- C5 (amended): a request with no prompt is not validated before
admission: whenever the rate-limiting section admits it (mutating the
tracker to `t1`, counters charged), the handler then fails on the missing
prompt inside the `try` block and returns HTTP 500 with the mutated tracker
kept — the consumed quota unit is not refunded. -/
theorem missing_prompt_charged (validKeys : List String) (now : DateTime)
    (req : Req) (t t1 : Tracker) (uty : String)
    (hp : req.prompt = none)
    (hq : (if isPaidUser validKeys req.apiKey then paidQuota now req.apiKey t
      else freeQuota now req.ipAddr t) = some (t1, QuotaResult.admitted uty)) :
    generate_image validKeys now req t =
      some (t1, HttpResponse.errorJson "Image generation failed" 500) := by
  simp only [generate_image, hq, hp]

/-- C5 witness: the concrete promptless request above is admitted, charged,
and answered 500. -/
theorem missing_prompt_charged_witness :
    (⟨"", "9.9.9.9", none, true, 1⟩ : Req).prompt = none ∧
    generate_image [] ⟨2024, 1, 1, 0, 0, 0⟩ ⟨"", "9.9.9.9", none, true, 1⟩ [] =
      some ([("9.9.9.9", ⟨some 1, some ⟨2024, 1, 1, 0, 0, 0⟩, some 1, some ⟨2024, 1, 1, 0, 0, 0⟩⟩)],
        HttpResponse.errorJson "Image generation failed" 500) :=
  ⟨rfl, missing_prompt_charged [] ⟨2024, 1, 1, 0, 0, 0⟩ ⟨"", "9.9.9.9", none, true, 1⟩ []
    [("9.9.9.9", ⟨some 1, some ⟨2024, 1, 1, 0, 0, 0⟩, some 1, some ⟨2024, 1, 1, 0, 0, 0⟩⟩)]
    "free" rfl (by decide)⟩

/-! ### C6 -/

/-- Modelled from the spec's words: the calendar month containing an
instant, identified by its year and month. -/
def calendarMonth (dt : DateTime) : Nat × Nat := (dt.year, dt.month)

/-- C6 counterexample: a record whose monthly window started 2024-01-31,
read 2025-01-15 — the calendar month of the current instant differs from
that of the window start (different years) and 350 days have elapsed, yet
`resetRecord` does not roll the monthly window over, because the source
compares only `now.month != monthly_reset.month` (month-of-year numbers). -/
theorem monthly_rollover_ignores_year_counterexample :
    calendarMonth ⟨2025, 1, 15, 0, 0, 0⟩ ≠ calendarMonth ⟨2024, 1, 31, 0, 0, 0⟩ ∧
    deltaDays ⟨2025, 1, 15, 0, 0, 0⟩ ⟨2024, 1, 31, 0, 0, 0⟩ = 350 ∧
    resetRecord ⟨2025, 1, 15, 0, 0, 0⟩
      ⟨some 0, some ⟨2025, 1, 15, 0, 0, 0⟩, some 7, some ⟨2024, 1, 31, 0, 0, 0⟩⟩ =
      ⟨some 0, some ⟨2025, 1, 15, 0, 0, 0⟩, some 7, some ⟨2024, 1, 31, 0, 0, 0⟩⟩ := by
  exact ⟨by decide, by decide, by decide⟩

/-- C6 (amended): the monthly window rolls over exactly when the
month-of-year number (1-12) of the current instant differs from that of
`monthlyWindowStart`, ignoring the year and the elapsed duration: a window
started on the last day of a month rolls over on the first day of the next
month even under 24 hours, but a window started in the same month of an
earlier year does not roll over at all. -/
theorem monthly_rollover_month_of_year (now : DateTime) (u : UsageRecord)
    (mc : Nat) (mr : DateTime)
    (hmc : u.monthlyCount = some mc) (hmr : u.monthlyReset = some mr) :
    (monthlyExpired now u = true ↔ now.month ≠ mr.month) ∧
    (now.month ≠ mr.month →
      (resetRecord now u).monthlyCount = some 0 ∧
      (resetRecord now u).monthlyReset = some now) ∧
    (now.month = mr.month →
      (resetRecord now u).monthlyCount = some mc ∧
      (resetRecord now u).monthlyReset = some mr) := by
  obtain ⟨odc, odr, omc, omr⟩ := u
  cases hmc; cases hmr
  refine ⟨by simp [monthlyExpired], fun hne => ?_, fun heq => ?_⟩
  · simp [resetRecord, monthlyExpired, hne]
    constructor <;> split <;> simp [hne]
  · have hm : monthlyExpired now
        ⟨odc, odr, some mc, some mr⟩ = false := by simp [monthlyExpired, heq]
    simp only [resetRecord]
    constructor <;> split <;> simp_all [monthlyExpired]

/-- C6 witness: month-boundary rollover under 24 hours (2024-01-31 23:00 to
2024-02-01 00:30 zeroes the counter), and same-month-of-year across a year
(January 2024 to January 2025) does not. -/
theorem monthly_rollover_month_of_year_witness :
    (monthlyExpired ⟨2024, 2, 1, 0, 30, 0⟩
        ⟨some 3, some ⟨2024, 1, 31, 23, 0, 0⟩, some 9, some ⟨2024, 1, 31, 23, 0, 0⟩⟩ = true ↔
      (2 : Nat) ≠ 1) ∧
    ((2 : Nat) ≠ 1 →
      (resetRecord ⟨2024, 2, 1, 0, 30, 0⟩
          ⟨some 3, some ⟨2024, 1, 31, 23, 0, 0⟩, some 9, some ⟨2024, 1, 31, 23, 0, 0⟩⟩).monthlyCount = some 0 ∧
      (resetRecord ⟨2024, 2, 1, 0, 30, 0⟩
          ⟨some 3, some ⟨2024, 1, 31, 23, 0, 0⟩, some 9, some ⟨2024, 1, 31, 23, 0, 0⟩⟩).monthlyReset =
        some ⟨2024, 2, 1, 0, 30, 0⟩) ∧
    ((1 : Nat) = 1 →
      (resetRecord ⟨2025, 1, 15, 0, 0, 0⟩
          ⟨some 0, some ⟨2025, 1, 15, 0, 0, 0⟩, some 7, some ⟨2024, 1, 31, 0, 0, 0⟩⟩).monthlyCount = some 7 ∧
      (resetRecord ⟨2025, 1, 15, 0, 0, 0⟩
          ⟨some 0, some ⟨2025, 1, 15, 0, 0, 0⟩, some 7, some ⟨2024, 1, 31, 0, 0, 0⟩⟩).monthlyReset =
        some ⟨2024, 1, 31, 0, 0, 0⟩) :=
  ⟨(monthly_rollover_month_of_year ⟨2024, 2, 1, 0, 30, 0⟩
      ⟨some 3, some ⟨2024, 1, 31, 23, 0, 0⟩, some 9, some ⟨2024, 1, 31, 23, 0, 0⟩⟩
      9 ⟨2024, 1, 31, 23, 0, 0⟩ rfl rfl).1,
   (monthly_rollover_month_of_year ⟨2024, 2, 1, 0, 30, 0⟩
      ⟨some 3, some ⟨2024, 1, 31, 23, 0, 0⟩, some 9, some ⟨2024, 1, 31, 23, 0, 0⟩⟩
      9 ⟨2024, 1, 31, 23, 0, 0⟩ rfl rfl).2.1,
   fun h => (monthly_rollover_month_of_year ⟨2025, 1, 15, 0, 0, 0⟩
      ⟨some 0, some ⟨2025, 1, 15, 0, 0, 0⟩, some 7, some ⟨2024, 1, 31, 0, 0, 0⟩⟩
      7 ⟨2024, 1, 31, 0, 0, 0⟩ rfl rfl).2.2 h⟩

/-! ### C7 -/

/-- C7 counterexample: an admitted, successfully generated multi-image
request (four images) returns the batch JSON response, which carries no
`Cache-Control: no-store` and no rate-limit headers — only the single-image
response sets them. -/
theorem batch_response_lacks_headers_counterexample :
    generate_image [] ⟨2024, 1, 1, 0, 0, 0⟩ ⟨"", "9.9.9.9", some "cat", true, 4⟩ [] =
      some ([("9.9.9.9", ⟨some 1, some ⟨2024, 1, 1, 0, 0, 0⟩, some 1, some ⟨2024, 1, 1, 0, 0, 0⟩⟩)],
        HttpResponse.batchJson) ∧
    ("Cache-Control", "no-store") ∉ respHeaders HttpResponse.batchJson ∧
    ("X-RateLimit-Type", "free") ∉ respHeaders HttpResponse.batchJson := by
  exact ⟨by decide, by decide, by decide⟩

/-- C7 (amended): only the single-image success response carries the
headers.  When exactly one image is returned, the response holds
`X-RateLimit-Type` = tier name, `X-RateLimit-Remaining` = post-increment
remaining quota (`"<daily>/<monthly>"` for standard tier, a single integer
for privileged tier) and `Cache-Control: no-store`; a multi-image success
response is plain JSON with none of these headers. -/
theorem success_response_headers (validKeys : List String) (now : DateTime)
    (t : Tracker) :
    (∀ (req : Req) (p : String) (u : UsageRecord) (dc mc : Nat) (dr mr : DateTime),
      isPaidUser validKeys req.apiKey = false →
      req.prompt = some p → req.upstreamOk = true →
      lookupT t req.ipAddr = some u →
      u.dailyCount = some dc → u.dailyReset = some dr →
      u.monthlyCount = some mc → u.monthlyReset = some mr →
      dc < MAX_FREE_DAILY → mc < MAX_FREE_MONTHLY →
      (req.imagesLen = 1 →
        generate_image validKeys now req t =
          some (insertT t req.ipAddr ⟨some (dc + 1), some dr, some (mc + 1), some mr⟩,
            HttpResponse.singleImage
              [("X-RateLimit-Type", "free"),
               ("X-RateLimit-Remaining",
                 toString ((MAX_FREE_DAILY : Int) - ((dc : Int) + 1)) ++ "/" ++
                 toString ((MAX_FREE_MONTHLY : Int) - ((mc : Int) + 1))),
               ("Cache-Control", "no-store")])) ∧
      (req.imagesLen ≠ 1 →
        generate_image validKeys now req t =
          some (insertT t req.ipAddr ⟨some (dc + 1), some dr, some (mc + 1), some mr⟩,
            HttpResponse.batchJson) ∧
        respHeaders HttpResponse.batchJson = [])) ∧
    (∀ (req : Req) (p : String) (u : UsageRecord) (mc : Nat) (mr : DateTime),
      isPaidUser validKeys req.apiKey = true →
      req.prompt = some p → req.upstreamOk = true → req.imagesLen = 1 →
      lookupT t req.apiKey = some u →
      u.monthlyCount = some mc → u.monthlyReset = some mr →
      mc < MAX_PAID_MONTHLY →
      generate_image validKeys now req t =
        some (insertT t req.apiKey { u with monthlyCount := some (mc + 1) },
          HttpResponse.singleImage
            [("X-RateLimit-Type", "paid"),
             ("X-RateLimit-Remaining", toString ((MAX_PAID_MONTHLY : Int) - ((mc : Int) + 1))),
             ("Cache-Control", "no-store")])) := by
  constructor
  · intro req p u dc mc dr mr hpd hp hok hu hdc hdr hmc hmr hdlt hmlt
    obtain ⟨odc, odr, omc, omr⟩ := u
    cases hdc; cases hdr; cases hmc; cases hmr
    have hq : freeQuota now req.ipAddr t =
        some (insertT t req.ipAddr ⟨some (dc + 1), some dr, some (mc + 1), some mr⟩,
          QuotaResult.admitted "free") := by
      simp [freeQuota, freeQuotaWith, hu, Nat.not_le.mpr hdlt, Nat.not_le.mpr hmlt]
    have hrem : remainingHeader
        (insertT t req.ipAddr ⟨some (dc + 1), some dr, some (mc + 1), some mr⟩)
        "free" req.apiKey req.ipAddr =
        some (toString ((MAX_FREE_DAILY : Int) - ((dc : Int) + 1)) ++ "/" ++
          toString ((MAX_FREE_MONTHLY : Int) - ((mc : Int) + 1))) := by
      simp [remainingHeader, lookupT_insertT_self]
    constructor
    · intro h1
      simp [generate_image, hpd, hq, hp, hok, h1, hrem]
    · intro h1
      refine ⟨?_, rfl⟩
      simp [generate_image, hpd, hq, hp, hok, h1]
  · intro req p u mc mr hpd hp hok h1 hu hmc hmr hmlt
    obtain ⟨odc, odr, omc, omr⟩ := u
    cases hmc; cases hmr
    have hq : paidQuota now req.apiKey t =
        some (insertT t req.apiKey ⟨odc, odr, some (mc + 1), some mr⟩,
          QuotaResult.admitted "paid") := by
      simp [paidQuota, paidQuotaWith, hu, Nat.not_le.mpr hmlt]
    have hrem : remainingHeader (insertT t req.apiKey ⟨odc, odr, some (mc + 1), some mr⟩)
        "paid" req.apiKey req.ipAddr =
        some (toString ((MAX_PAID_MONTHLY : Int) - ((mc : Int) + 1))) := by
      simp [remainingHeader, lookupT_insertT_self]
    simp [generate_image, hpd, hq, hp, hok, h1, hrem]

/-- C7 witness: a concrete free single-image request carries exactly the
three headers with post-increment remaining "59/99". -/
theorem success_response_headers_witness :
    isPaidUser [] "" = false ∧ (5 : Nat) < MAX_FREE_DAILY ∧ (1 : Nat) = 1 ∧
    generate_image [] ⟨2024, 1, 2, 0, 0, 0⟩ ⟨"", "9.9.9.9", some "cat", true, 1⟩
      [("9.9.9.9", ⟨some 0, some ⟨2024, 1, 1, 0, 0, 0⟩, some 0, some ⟨2024, 1, 1, 0, 0, 0⟩⟩)] =
      some ([("9.9.9.9", ⟨some 1, some ⟨2024, 1, 1, 0, 0, 0⟩, some 1, some ⟨2024, 1, 1, 0, 0, 0⟩⟩)],
        HttpResponse.singleImage
          [("X-RateLimit-Type", "free"),
           ("X-RateLimit-Remaining",
             toString ((MAX_FREE_DAILY : Int) - ((0 : Int) + 1)) ++ "/" ++
             toString ((MAX_FREE_MONTHLY : Int) - ((0 : Int) + 1))),
           ("Cache-Control", "no-store")]) :=
  ⟨rfl, by decide, rfl,
    ((success_response_headers [] ⟨2024, 1, 2, 0, 0, 0⟩
        [("9.9.9.9", ⟨some 0, some ⟨2024, 1, 1, 0, 0, 0⟩, some 0, some ⟨2024, 1, 1, 0, 0, 0⟩⟩)]).1
      ⟨"", "9.9.9.9", some "cat", true, 1⟩ "cat"
      ⟨some 0, some ⟨2024, 1, 1, 0, 0, 0⟩, some 0, some ⟨2024, 1, 1, 0, 0, 0⟩⟩
      0 0 ⟨2024, 1, 1, 0, 0, 0⟩ ⟨2024, 1, 1, 0, 0, 0⟩
      rfl rfl rfl rfl rfl rfl rfl rfl (by decide) (by decide)).1 rfl⟩

/-! ### C8 -/

theorem deltaDays_self (now : DateTime) : deltaDays now now = 0 := by
  simp [deltaDays, Int.zero_fdiv]

/-- C8: window rollover is idempotent — applying `resetRecord` twice at the
same instant equals applying it once, and on a record whose windows are
already current (daily not expired, monthly month unchanged) it is a no-op. -/
theorem rollover_idempotent (now : DateTime) (u : UsageRecord) :
    resetRecord now (resetRecord now u) = resetRecord now u ∧
    (dailyExpired now u = false → monthlyExpired now u = false →
      resetRecord now u = u) := by
  obtain ⟨odc, odr, omc, omr⟩ := u
  constructor
  · simp only [resetRecord, dailyExpired, monthlyExpired]
    split_ifs <;> simp_all [dailyExpired, monthlyExpired, deltaDays_self]
  · intro h1 h2
    simp [resetRecord, h1, h2]

/-- C8 witness: a record 12 hours into its windows is untouched by one
rollover, and double rollover of a two-day-old record equals single. -/
theorem rollover_idempotent_witness :
    (resetRecord ⟨2024, 1, 3, 0, 0, 0⟩ (resetRecord ⟨2024, 1, 3, 0, 0, 0⟩
        ⟨some 2, some ⟨2024, 1, 1, 0, 0, 0⟩, some 2, some ⟨2024, 1, 1, 0, 0, 0⟩⟩) =
      resetRecord ⟨2024, 1, 3, 0, 0, 0⟩
        ⟨some 2, some ⟨2024, 1, 1, 0, 0, 0⟩, some 2, some ⟨2024, 1, 1, 0, 0, 0⟩⟩) ∧
    dailyExpired ⟨2024, 1, 1, 12, 0, 0⟩
      ⟨some 2, some ⟨2024, 1, 1, 0, 0, 0⟩, some 2, some ⟨2024, 1, 1, 0, 0, 0⟩⟩ = false ∧
    monthlyExpired ⟨2024, 1, 1, 12, 0, 0⟩
      ⟨some 2, some ⟨2024, 1, 1, 0, 0, 0⟩, some 2, some ⟨2024, 1, 1, 0, 0, 0⟩⟩ = false ∧
    resetRecord ⟨2024, 1, 1, 12, 0, 0⟩
      ⟨some 2, some ⟨2024, 1, 1, 0, 0, 0⟩, some 2, some ⟨2024, 1, 1, 0, 0, 0⟩⟩ =
      ⟨some 2, some ⟨2024, 1, 1, 0, 0, 0⟩, some 2, some ⟨2024, 1, 1, 0, 0, 0⟩⟩ :=
  ⟨(rollover_idempotent ⟨2024, 1, 3, 0, 0, 0⟩
      ⟨some 2, some ⟨2024, 1, 1, 0, 0, 0⟩, some 2, some ⟨2024, 1, 1, 0, 0, 0⟩⟩).1,
   by decide, by decide,
   (rollover_idempotent ⟨2024, 1, 1, 12, 0, 0⟩
      ⟨some 2, some ⟨2024, 1, 1, 0, 0, 0⟩, some 2, some ⟨2024, 1, 1, 0, 0, 0⟩⟩).2
     (by decide) (by decide)⟩

/-! ### C9 -/

/-- C9: a denied admission decision (free or paid tier) leaves the whole
tracker — in particular the denied caller's usage record, its counters and
its window-starts — exactly as it was. -/
theorem denial_leaves_record_unchanged (dCap mCap pCap : Nat) (now : DateTime)
    (id : String) (t : Tracker) (u : UsageRecord) (hu : lookupT t id = some u) :
    (∀ t2 e l r s, freeQuotaWith dCap mCap now id t =
      some (t2, QuotaResult.denied e l r s) → t2 = t) ∧
    (∀ t2 e l r s, paidQuotaWith pCap now id t =
      some (t2, QuotaResult.denied e l r s) → t2 = t) := by
  obtain ⟨odc, odr, omc, omr⟩ := u
  constructor
  · intro t2 e l r s h
    simp only [freeQuotaWith, hu] at h
    match hodc : odc with
    | none => simp [hodc] at h
    | some dc =>
      simp only [hodc] at h
      by_cases hge : dc ≥ dCap
      · rw [if_pos hge] at h
        match hodr : odr with
        | none => simp [hodr] at h
        | some dr =>
          simp only [hodr, Option.some.injEq, Prod.mk.injEq] at h
          exact h.1.symm
      · rw [if_neg hge] at h
        match homc : omc with
        | none => simp [homc] at h
        | some mc =>
          simp only [homc] at h
          by_cases hge2 : mc ≥ mCap
          · rw [if_pos hge2] at h
            match homr : omr with
            | none => simp [homr] at h
            | some mr =>
              simp only [homr, Option.some.injEq, Prod.mk.injEq] at h
              exact h.1.symm
          · rw [if_neg hge2] at h
            simp at h
  · intro t2 e l r s h
    simp only [paidQuotaWith, hu] at h
    match homc : omc with
    | none => simp [homc] at h
    | some mc =>
      simp only [homc] at h
      by_cases hge2 : mc ≥ pCap
      · rw [if_pos hge2] at h
        match homr : omr with
        | none => simp [homr] at h
        | some mr =>
          simp only [homr, Option.some.injEq, Prod.mk.injEq] at h
          exact h.1.symm
      · rw [if_neg hge2] at h
        simp at h

/-- C9 witness: a concrete free record at its daily cap is denied and the
tracker is returned unchanged. -/
theorem denial_leaves_record_unchanged_witness :
    freeQuotaWith 3 30 ⟨2024, 1, 1, 6, 0, 0⟩ "1.2.3.4"
      [("1.2.3.4", ⟨some 3, some ⟨2024, 1, 1, 0, 0, 0⟩, some 9, some ⟨2024, 1, 1, 0, 0, 0⟩⟩)] =
      some ([("1.2.3.4", ⟨some 3, some ⟨2024, 1, 1, 0, 0, 0⟩, some 9, some ⟨2024, 1, 1, 0, 0, 0⟩⟩)],
        QuotaResult.denied "Daily free limit exceeded" 3
          (fmtDateTime (addOneDay ⟨2024, 1, 1, 0, 0, 0⟩)) 429) ∧
    ([("1.2.3.4", (⟨some 3, some ⟨2024, 1, 1, 0, 0, 0⟩, some 9, some ⟨2024, 1, 1, 0, 0, 0⟩⟩ : UsageRecord))] : Tracker) =
      [("1.2.3.4", ⟨some 3, some ⟨2024, 1, 1, 0, 0, 0⟩, some 9, some ⟨2024, 1, 1, 0, 0, 0⟩⟩)] :=
  ⟨by decide,
    (denial_leaves_record_unchanged 3 30 200 ⟨2024, 1, 1, 6, 0, 0⟩ "1.2.3.4"
      [("1.2.3.4", ⟨some 3, some ⟨2024, 1, 1, 0, 0, 0⟩, some 9, some ⟨2024, 1, 1, 0, 0, 0⟩⟩)]
      ⟨some 3, some ⟨2024, 1, 1, 0, 0, 0⟩, some 9, some ⟨2024, 1, 1, 0, 0, 0⟩⟩ rfl).1
      [("1.2.3.4", ⟨some 3, some ⟨2024, 1, 1, 0, 0, 0⟩, some 9, some ⟨2024, 1, 1, 0, 0, 0⟩⟩)]
      "Daily free limit exceeded" 3 (fmtDateTime (addOneDay ⟨2024, 1, 1, 0, 0, 0⟩)) 429
      (by decide)⟩

/-! ### C10 -/

/-- C10: the admission path never modifies the window-start timestamps of an
existing record: whatever the outcome (admitted or denied, free or paid),
the identity's record after the decision carries the same `dailyReset` and
`monthlyReset` as before; window-starts are written only at record creation
and by the background sweep. -/
theorem admission_preserves_window_starts (dCap mCap pCap : Nat) (now : DateTime)
    (id : String) (t : Tracker) (u : UsageRecord) (hu : lookupT t id = some u) :
    (∀ t2 r, freeQuotaWith dCap mCap now id t = some (t2, r) →
      ∃ u2, lookupT t2 id = some u2 ∧ u2.dailyReset = u.dailyReset ∧
        u2.monthlyReset = u.monthlyReset) ∧
    (∀ t2 r, paidQuotaWith pCap now id t = some (t2, r) →
      ∃ u2, lookupT t2 id = some u2 ∧ u2.dailyReset = u.dailyReset ∧
        u2.monthlyReset = u.monthlyReset) := by
  obtain ⟨odc, odr, omc, omr⟩ := u
  constructor
  · intro t2 r h
    simp only [freeQuotaWith, hu] at h
    match hodc : odc with
    | none => simp [hodc] at h
    | some dc =>
      simp only [hodc] at h
      by_cases hge : dc ≥ dCap
      · rw [if_pos hge] at h
        match hodr : odr with
        | none => simp [hodr] at h
        | some dr =>
          simp only [hodr, Option.some.injEq, Prod.mk.injEq] at h
          obtain ⟨rfl, -⟩ := h
          exact ⟨_, hu, rfl, rfl⟩
      · rw [if_neg hge] at h
        match homc : omc with
        | none => simp [homc] at h
        | some mc =>
          simp only [homc] at h
          by_cases hge2 : mc ≥ mCap
          · rw [if_pos hge2] at h
            match homr : omr with
            | none => simp [homr] at h
            | some mr =>
              simp only [homr, Option.some.injEq, Prod.mk.injEq] at h
              obtain ⟨rfl, -⟩ := h
              exact ⟨_, hu, rfl, rfl⟩
          · rw [if_neg hge2] at h
            simp only [Option.some.injEq, Prod.mk.injEq] at h
            obtain ⟨rfl, -⟩ := h
            exact ⟨_, lookupT_insertT_self t id _, rfl, rfl⟩
  · intro t2 r h
    simp only [paidQuotaWith, hu] at h
    match homc : omc with
    | none => simp [homc] at h
    | some mc =>
      simp only [homc] at h
      by_cases hge2 : mc ≥ pCap
      · rw [if_pos hge2] at h
        match homr : omr with
        | none => simp [homr] at h
        | some mr =>
          simp only [homr, Option.some.injEq, Prod.mk.injEq] at h
          obtain ⟨rfl, -⟩ := h
          exact ⟨_, hu, rfl, rfl⟩
      · rw [if_neg hge2] at h
        simp only [Option.some.injEq, Prod.mk.injEq] at h
        obtain ⟨rfl, -⟩ := h
        exact ⟨_, lookupT_insertT_self t id _, rfl, rfl⟩

/-- C10 witness: an admitted free request from an existing record keeps the
stored window-starts. -/
theorem admission_preserves_window_starts_witness :
    freeQuotaWith 60 100 ⟨2024, 1, 1, 6, 0, 0⟩ "1.2.3.4"
      [("1.2.3.4", ⟨some 2, some ⟨2024, 1, 1, 0, 0, 0⟩, some 2, some ⟨2024, 1, 1, 0, 0, 0⟩⟩)] =
      some ([("1.2.3.4", ⟨some 3, some ⟨2024, 1, 1, 0, 0, 0⟩, some 3, some ⟨2024, 1, 1, 0, 0, 0⟩⟩)],
        QuotaResult.admitted "free") ∧
    (∃ u2, lookupT [("1.2.3.4",
        (⟨some 3, some ⟨2024, 1, 1, 0, 0, 0⟩, some 3, some ⟨2024, 1, 1, 0, 0, 0⟩⟩ : UsageRecord))]
        "1.2.3.4" = some u2 ∧
      u2.dailyReset = some ⟨2024, 1, 1, 0, 0, 0⟩ ∧
      u2.monthlyReset = some ⟨2024, 1, 1, 0, 0, 0⟩) :=
  ⟨by decide,
    (admission_preserves_window_starts 60 100 200 ⟨2024, 1, 1, 6, 0, 0⟩ "1.2.3.4"
      [("1.2.3.4", ⟨some 2, some ⟨2024, 1, 1, 0, 0, 0⟩, some 2, some ⟨2024, 1, 1, 0, 0, 0⟩⟩)]
      ⟨some 2, some ⟨2024, 1, 1, 0, 0, 0⟩, some 2, some ⟨2024, 1, 1, 0, 0, 0⟩⟩ rfl).1
      [("1.2.3.4", ⟨some 3, some ⟨2024, 1, 1, 0, 0, 0⟩, some 3, some ⟨2024, 1, 1, 0, 0, 0⟩⟩)]
      (QuotaResult.admitted "free") (by decide)⟩
